import Mathlib

/-!
Shallow embedding of `src/app.py` (a Textual stopwatch application).

The elapsed-time core is the `TimeDisplay` widget: its reactive fields
`start_time`, `time`, `total` (floats in Python, modelled here as `ℚ` since
all the arithmetic on them is field arithmetic on the monotonic clock) and
the methods `update_time`, `watch_time` (display formatting), `start`,
`stop`, `reset`.  The interval timer created in `on_mount`
(`set_interval(1/60, self.update_time, pause=True)`) is modelled by the
boolean field `running`: `start` resumes it, `stop` pauses it, and a tick
(`update_time`) fires only while it is resumed.  Every method takes the
current value of `monotonic()` as an explicit `now : ℚ` argument where the
Python code reads the clock.

The collection layer (`StopwatchApp.action_add_stopwatch`,
`action_remove_stopwatch`, `action_remove_all_stopwatches`,
`action_reset_all_stopwatches`) acts on the DOM sequence of stopwatches,
modelled as a `List TimeDisplay` in mount order.
-/

/-- State of the `TimeDisplay` widget of `src/app.py`.

* `start_time` — line 12, `start_time = reactive(monotonic)`: the monotonic
  instant the current segment began (defaults to the creation instant).
* `time` — line 13, the displayed elapsed value.
* `total` — line 14, time banked by completed `stop` calls.
* `running` — whether `self.update_timer` is resumed (line 18 creates it
  paused; `start` resumes it, `stop` pauses it). -/
structure TimeDisplay where
  start_time : ℚ
  time : ℚ
  total : ℚ
  running : Bool
deriving DecidableEq

namespace TimeDisplay

/-- A freshly created `TimeDisplay` at monotonic instant `t0`:
`start_time = reactive(monotonic)` evaluates the clock at creation,
`time = 0.0`, `total = 0.0`, and the update timer starts paused
(line 18, `pause=True`). -/
def init (t0 : ℚ) : TimeDisplay :=
  { start_time := t0, time := 0, total := 0, running := false }

/-- Lines 20-22: `self.time = self.total + (monotonic() - self.start_time)`. -/
def update_time (s : TimeDisplay) (now : ℚ) : TimeDisplay :=
  { s with time := s.total + (now - s.start_time) }

/-- Lines 30-33: `self.start_time = monotonic(); self.update_timer.resume()`.
Unconditional: no check of the running state. -/
def start (s : TimeDisplay) (now : ℚ) : TimeDisplay :=
  { s with start_time := now, running := true }

/-- Lines 35-39: `self.update_timer.pause(); self.total += monotonic() -
self.start_time; self.time = self.total`.  Unconditional: no check of the
running state. -/
def stop (s : TimeDisplay) (now : ℚ) : TimeDisplay :=
  { s with running := false
         , total := s.total + (now - s.start_time)
         , time := s.total + (now - s.start_time) }

/-- Lines 41-44: `self.total = 0; self.time = 0`.  Does not touch
`start_time` and does not pause the timer. -/
def reset (s : TimeDisplay) : TimeDisplay :=
  { s with total := 0, time := 0 }

/-- The elapsed value observable at instant `now`: while the update timer is
running the next tick displays `total + (now - start_time)` (lines 20-22);
while paused the display holds the stored `time` field. -/
def current_elapsed (s : TimeDisplay) (now : ℚ) : ℚ :=
  if s.running then s.total + (now - s.start_time) else s.time

end TimeDisplay

/-- Rounding to an integer as Python string formatting does (IEEE
round-half-to-even), on exact rationals. -/
def roundHalfEven (q : ℚ) : ℤ :=
  let f : ℤ := Rat.floor q
  let frac : ℚ := q - (f : ℚ)
  if frac < 1 / 2 then f
  else if 1 / 2 < frac then f + 1
  else if f % 2 = 0 then f else f + 1

/-- The character used for zero padding. -/
def zeroChar : Char := Char.ofNat 48

/-- The thousands-separator character of the `,` format option. -/
def sepChar : Char := Char.ofNat 44

/-- Left-pad a string with the zero digit to width `w` (the `0` fill of a
Python format spec). -/
def padZero (s : String) (w : Nat) : String :=
  if s.length < w then String.mk (List.replicate (w - s.length) zeroChar) ++ s
  else s

/-- Insert a separator after every group of three characters (input is the
digit list in reverse order). -/
def group3 : List Char → List Char
  | a :: b :: c :: d :: rest => a :: b :: c :: sepChar :: group3 (d :: rest)
  | l => l

/-- Insert thousands separators into a decimal digit string. -/
def insertCommas (s : String) : String :=
  String.mk (group3 s.data.reverse).reverse

/-- The `{hours:02,.0f}` field of line 28: round to an integer, insert
thousands separators, zero-pad to width 2.  (Negative durations never occur;
`Int.toNat` clamps them to 0.) -/
def fmt_hours (q : ℚ) : String :=
  padZero (insertCommas (toString (roundHalfEven q).toNat)) 2

/-- The `{minutes:02.0f}` field of line 28: round to an integer, zero-pad to
width 2. -/
def fmt_minutes (q : ℚ) : String :=
  padZero (toString (roundHalfEven q).toNat) 2

/-- The `{seconds:05.2f}` field of line 28: round to two decimal places and
zero-pad the whole rendering (integer part, point, two decimals) to width
5. -/
def fmt_seconds (q : ℚ) : String :=
  let r := (roundHalfEven (q * 100)).toNat
  padZero (toString (r / 100) ++ "." ++ padZero (toString (r % 100)) 2) 5

/-- Lines 24-28, `watch_time`: `minutes, seconds = divmod(time, 60)`,
`hours, minutes = divmod(minutes, 60)`, then render
`f"{hours:02,.0f}:{minutes:02.0f}:{seconds:05.2f}"`.  Python `divmod` on
nonnegative reals is floor division with remainder, computed here exactly on
`ℚ`. -/
def watch_time (time : ℚ) : String :=
  let m : ℚ := (Rat.floor (time / 60) : ℤ)
  let seconds : ℚ := time - 60 * m
  let hours : ℚ := (Rat.floor (m / 60) : ℤ)
  let minutes : ℚ := m - 60 * hours
  fmt_hours hours ++ ":" ++ fmt_minutes minutes ++ ":" ++ fmt_seconds seconds

/-- Line 102, `action_add_stopwatch`: `self.query_one("#timers").mount(new_stopwatch)`
appends a fresh stopwatch (whose `TimeDisplay` is created at clock instant
`t0`) at the end of the container. -/
def action_add_stopwatch (l : List TimeDisplay) (t0 : ℚ) : List TimeDisplay :=
  l ++ [TimeDisplay.init t0]

/-- Lines 110-114, `action_remove_stopwatch`: `timers = self.query("Stopwatch");
if timers: timers.last().remove()` — removes the last stopwatch in DOM order
(the most recently mounted one) and does nothing when the query is empty. -/
def action_remove_stopwatch (l : List TimeDisplay) : List TimeDisplay :=
  if l.isEmpty then l else l.dropLast

/-- Lines 105-108, `action_remove_all_stopwatches`: removes every stopwatch. -/
def action_remove_all_stopwatches (_l : List TimeDisplay) : List TimeDisplay :=
  []

/-- Lines 116-121, `action_reset_all_stopwatches`: calls `reset()` on the
`TimeDisplay` of every stopwatch. -/
def action_reset_all_stopwatches (l : List TimeDisplay) : List TimeDisplay :=
  l.map TimeDisplay.reset

/-- The discrete events that can hit one `TimeDisplay`: the three button
methods plus a tick of the interval timer. -/
inductive Op where
  | start
  | stop
  | reset
  | tick
deriving DecidableEq

/-- Apply one event at monotonic instant `t`.  A tick calls `update_time`
only while the interval timer is resumed (it was created `pause=True` and is
paused again by `stop`). -/
def step (s : TimeDisplay) : Op → ℚ → TimeDisplay
  | Op.start, t => s.start t
  | Op.stop, t => s.stop t
  | Op.reset, _ => s.reset
  | Op.tick, t => if s.running then s.update_time t else s

/-- Run a timestamped event trace from a state. -/
def run (s : TimeDisplay) : List (Op × ℚ) → TimeDisplay
  | [] => s
  | (op, t) :: rest => run (step s op t) rest

/-- The monotonic clock never goes backwards: each event timestamp is at
least the previous one (and at least the creation instant). -/
def timesMono (t : ℚ) : List (Op × ℚ) → Bool
  | [] => true
  | (_, u) :: rest => decide (t ≤ u) && timesMono u rest

/-- The timestamp of the last event of a trace (the creation instant for an
empty trace). -/
def lastTime (t : ℚ) : List (Op × ℚ) → ℚ
  | [] => t
  | (_, u) :: rest => lastTime u rest

/-- Invariant maintained by every event under a monotone clock: the segment
anchor is in the past, the banked total is nonnegative, and while the timer
is paused the displayed `time` equals `total`. -/
def TrackerInv (s : TimeDisplay) (t : ℚ) : Prop :=
  s.start_time ≤ t ∧ 0 ≤ s.total ∧ (s.running = false → s.time = s.total)

theorem step_preserves (s : TimeDisplay) (op : Op) (t u : ℚ)
    (h : TrackerInv s t) (htu : t ≤ u) : TrackerInv (step s op u) u := by
  obtain ⟨h1, h2, h3⟩ := h
  cases op with
  | start =>
      refine ⟨le_refl u, h2, ?_⟩
      intro hc
      simp [step, TimeDisplay.start] at hc
  | stop =>
      refine ⟨le_trans h1 htu, ?_, fun _ => rfl⟩
      have : s.start_time ≤ u := le_trans h1 htu
      simp only [step, TimeDisplay.stop]
      linarith
  | reset =>
      exact ⟨le_trans h1 htu, le_refl 0, fun _ => rfl⟩
  | tick =>
      cases hrb : s.running with
      | false =>
          simp only [step, hrb, Bool.false_eq_true, if_false]
          exact ⟨le_trans h1 htu, h2, fun _ => h3 hrb⟩
      | true =>
          simp only [step, hrb, if_true, TimeDisplay.update_time]
          exact ⟨le_trans h1 htu, h2, fun hc => by simp [hrb] at hc⟩

theorem run_preserves (evs : List (Op × ℚ)) :
    ∀ (s : TimeDisplay) (t : ℚ), TrackerInv s t → timesMono t evs = true →
      TrackerInv (run s evs) (lastTime t evs) := by
  induction evs with
  | nil => intro s t h _; exact h
  | cons e rest ih =>
      intro s t h hm
      obtain ⟨op, u⟩ := e
      simp only [timesMono, Bool.and_eq_true, decide_eq_true_eq] at hm
      exact ih (step s op u) u (step_preserves s op t u h hm.1) hm.2


/-- Claim C1, as stated, is false of the code: `stop` has no guard on the
running state, so a second `stop` at instant 1 on a tracker started at 0
banks the segment a second time and yields a different state than a single
`stop`. -/
theorem C1_stop_not_idempotent_counterexample :
    TimeDisplay.stop (TimeDisplay.stop (TimeDisplay.start (TimeDisplay.init 0) 0) 1) 1
      ≠ TimeDisplay.stop (TimeDisplay.start (TimeDisplay.init 0) 0) 1 := by
  simp only [TimeDisplay.stop, TimeDisplay.start, TimeDisplay.init, ne_eq,
    TimeDisplay.mk.injEq, not_and]
  intro _ _
  norm_num

/-- Claim C1 (amended): `stop` is unconditional, not a no-op on a stopped
tracker.  Calling `stop` twice at the same instant `t` banks the interval
`t - segment_start` a second time: the total after the second call exceeds
the total after the first by `t - s.start_time`, and the two calls give the
same state only when `t` equals the segment anchor. -/
theorem C1_stop_unconditional (s : TimeDisplay) (t : ℚ) :
    (TimeDisplay.stop (TimeDisplay.stop s t) t).total
        = (TimeDisplay.stop s t).total + (t - s.start_time) ∧
    (TimeDisplay.stop (TimeDisplay.stop s t) t).running = false ∧
    (t ≠ s.start_time →
      TimeDisplay.stop (TimeDisplay.stop s t) t ≠ TimeDisplay.stop s t) := by
  refine ⟨by simp [TimeDisplay.stop], rfl, ?_⟩
  intro ht hc
  have h2 : (TimeDisplay.stop (TimeDisplay.stop s t) t).total
      = (TimeDisplay.stop s t).total := by rw [hc]
  simp only [TimeDisplay.stop] at h2
  apply ht
  linarith

/-- Witness for C1_stop_unconditional at the tracker started at instant 0,
stopped twice at instant 1. -/
theorem C1_stop_unconditional_witness :
    (1 : ℚ) ≠ (TimeDisplay.start (TimeDisplay.init 0) 0).start_time ∧
    TimeDisplay.stop (TimeDisplay.stop (TimeDisplay.start (TimeDisplay.init 0) 0) 1) 1
      ≠ TimeDisplay.stop (TimeDisplay.start (TimeDisplay.init 0) 0) 1 :=
  ⟨by simp [TimeDisplay.start, TimeDisplay.init],
   (C1_stop_unconditional (TimeDisplay.start (TimeDisplay.init 0) 0) 1).2.2
     (by simp [TimeDisplay.start, TimeDisplay.init])⟩

/-- Claim C2, as stated, is false of the code: `reset` does not re-anchor
`start_time`.  A tracker started at instant 0 and reset while running shows,
at instant 5, an elapsed value of 5 rather than counting up again from
zero. -/
theorem C2_reset_keeps_anchor_counterexample :
    TimeDisplay.current_elapsed
        (TimeDisplay.reset (TimeDisplay.start (TimeDisplay.init 0) 0)) 5 ≠ 0 := by
  norm_num [TimeDisplay.current_elapsed, TimeDisplay.reset, TimeDisplay.start,
    TimeDisplay.init]

/-- Claim C2 (amended): `reset` zeroes `total` and the displayed `time` and
keeps the tracker running, but it leaves `segment_start` unchanged, so a
running tracker continues counting from its original segment anchor: the
elapsed value observable at instant `t` after the reset is
`t - segment_start`, not a count restarted from zero at the reset
instant. -/
theorem C2_reset_running (s : TimeDisplay) (t : ℚ) :
    (TimeDisplay.reset s).total = 0 ∧
    (TimeDisplay.reset s).time = 0 ∧
    (TimeDisplay.reset s).running = s.running ∧
    (TimeDisplay.reset s).start_time = s.start_time ∧
    (s.running = true →
      TimeDisplay.current_elapsed (TimeDisplay.reset s) t = t - s.start_time) := by
  refine ⟨rfl, rfl, rfl, rfl, ?_⟩
  intro h
  simp [TimeDisplay.current_elapsed, TimeDisplay.reset, h]

/-- Witness for C2_reset_running at the tracker started at instant 0, reset
while running, observed at instant 5. -/
theorem C2_reset_running_witness :
    (TimeDisplay.start (TimeDisplay.init 0) 0).running = true ∧
    TimeDisplay.current_elapsed
        (TimeDisplay.reset (TimeDisplay.start (TimeDisplay.init 0) 0)) 5
      = 5 - (TimeDisplay.start (TimeDisplay.init 0) 0).start_time :=
  ⟨rfl, (C2_reset_running (TimeDisplay.start (TimeDisplay.init 0) 0) 5).2.2.2.2 rfl⟩

/-- Claim C3, as stated, is false of the code: `start` has no guard on the
running state, so a second `start` at instant 5 on a tracker already started
at instant 0 moves `start_time` from 0 to 5 instead of leaving it
unchanged. -/
theorem C3_start_reanchors_counterexample :
    (TimeDisplay.start (TimeDisplay.start (TimeDisplay.init 0) 0) 5).start_time
      ≠ (TimeDisplay.start (TimeDisplay.init 0) 0).start_time := by
  norm_num [TimeDisplay.start, TimeDisplay.init]

/-- Claim C3 (amended): `start` is unconditional: it always sets
`segment_start` to the current instant and `running` to true, leaving
`total` unchanged.  On an already-running tracker this discards the unbanked
time of the current segment: the elapsed value at the same instant drops by
`t - segment_start`. -/
theorem C3_start_unconditional (s : TimeDisplay) (t : ℚ) :
    (TimeDisplay.start s t).running = true ∧
    (TimeDisplay.start s t).total = s.total ∧
    (TimeDisplay.start s t).start_time = t ∧
    (s.running = true →
      TimeDisplay.current_elapsed (TimeDisplay.start s t) t
        = TimeDisplay.current_elapsed s t - (t - s.start_time)) := by
  refine ⟨rfl, rfl, rfl, ?_⟩
  intro h
  simp [TimeDisplay.current_elapsed, TimeDisplay.start, h]

/-- Witness for C3_start_unconditional: a second `start` at instant 5 on the
tracker started at instant 0. -/
theorem C3_start_unconditional_witness :
    (TimeDisplay.start (TimeDisplay.init 0) 0).running = true ∧
    TimeDisplay.current_elapsed
        (TimeDisplay.start (TimeDisplay.start (TimeDisplay.init 0) 0) 5) 5
      = TimeDisplay.current_elapsed (TimeDisplay.start (TimeDisplay.init 0) 0) 5
        - (5 - (TimeDisplay.start (TimeDisplay.init 0) 0).start_time) :=
  ⟨rfl, (C3_start_unconditional (TimeDisplay.start (TimeDisplay.init 0) 0) 5).2.2.2 rfl⟩

/-- Claim C4, as stated, is false of the code: after `reset` on a running
tracker started at instant 0, the elapsed value observable at the reset
instant 7 is 7, not 0, because `reset` does not move `start_time`. -/
theorem C4_reset_elapsed_counterexample :
    TimeDisplay.current_elapsed
        (TimeDisplay.reset (TimeDisplay.start (TimeDisplay.init 0) 0)) 7 ≠ 0 := by
  norm_num [TimeDisplay.current_elapsed, TimeDisplay.reset, TimeDisplay.start,
    TimeDisplay.init]

/-- Claim C4 (amended): immediately after `reset` the banked total is 0, and
for a stopped tracker the observable elapsed value is 0 at any instant; but
for a running tracker the observable elapsed value at instant `t` is
`t - segment_start`, which is zero only when the current segment began at
the reset instant. -/
theorem C4_reset_elapsed (s : TimeDisplay) (t : ℚ) :
    (TimeDisplay.reset s).total = 0 ∧
    (s.running = false →
      TimeDisplay.current_elapsed (TimeDisplay.reset s) t = 0) ∧
    (s.running = true →
      TimeDisplay.current_elapsed (TimeDisplay.reset s) t = t - s.start_time) := by
  refine ⟨rfl, ?_, ?_⟩ <;> intro h <;>
    simp [TimeDisplay.current_elapsed, TimeDisplay.reset, h]

/-- Witness for C4_reset_elapsed: a stopped fresh tracker and a tracker
started at instant 0, both reset and observed at instant 7. -/
theorem C4_reset_elapsed_witness :
    ((TimeDisplay.init 0).running = false ∧
      TimeDisplay.current_elapsed (TimeDisplay.reset (TimeDisplay.init 0)) 7 = 0) ∧
    ((TimeDisplay.start (TimeDisplay.init 0) 0).running = true ∧
      TimeDisplay.current_elapsed
          (TimeDisplay.reset (TimeDisplay.start (TimeDisplay.init 0) 0)) 7
        = 7 - (TimeDisplay.start (TimeDisplay.init 0) 0).start_time) :=
  ⟨⟨rfl, (C4_reset_elapsed (TimeDisplay.init 0) 7).2.1 rfl⟩,
   ⟨rfl, (C4_reset_elapsed (TimeDisplay.start (TimeDisplay.init 0) 0) 7).2.2 rfl⟩⟩

/-- Claim C5, as stated, is false of the code in its monotonicity part:
`start` on a running tracker is not a reset, yet it decreases the observable
elapsed value (here from 6 to 0 at instant 6). -/
theorem C5_elapsed_decreases_counterexample :
    TimeDisplay.current_elapsed
        (TimeDisplay.start (TimeDisplay.start (TimeDisplay.init 0) 0) 6) 6
      < TimeDisplay.current_elapsed (TimeDisplay.start (TimeDisplay.init 0) 0) 6 := by
  norm_num [TimeDisplay.current_elapsed, TimeDisplay.start, TimeDisplay.init]

/-- Claim C5 (amended): on every state reached from a fresh tracker by a
trace of button and tick events under a monotone clock, the banked total is
nonnegative, a stopped tracker observes `total` as its elapsed value at any
instant, and a running tracker observes `total + (now - segment_start)`;
moreover the observable elapsed value is monotone in `now` for a fixed
state, and `stop` at an instant does not change the elapsed value observable
at that instant on a running tracker.  However, elapsed time can decrease
not only via `reset` but also via `start` on a running tracker. -/
theorem C5_invariants :
    (∀ (t0 : ℚ) (evs : List (Op × ℚ)), timesMono t0 evs = true →
        0 ≤ (run (TimeDisplay.init t0) evs).total ∧
        ((run (TimeDisplay.init t0) evs).running = false →
          ∀ u : ℚ, TimeDisplay.current_elapsed (run (TimeDisplay.init t0) evs) u
            = (run (TimeDisplay.init t0) evs).total) ∧
        ((run (TimeDisplay.init t0) evs).running = true →
          ∀ u : ℚ, TimeDisplay.current_elapsed (run (TimeDisplay.init t0) evs) u
            = (run (TimeDisplay.init t0) evs).total
                + (u - (run (TimeDisplay.init t0) evs).start_time))) ∧
    (∀ (s : TimeDisplay) (u v : ℚ), u ≤ v →
        TimeDisplay.current_elapsed s u ≤ TimeDisplay.current_elapsed s v) ∧
    (∀ (s : TimeDisplay) (t : ℚ), s.running = true →
        TimeDisplay.current_elapsed (TimeDisplay.stop s t) t
          = TimeDisplay.current_elapsed s t) := by
  refine ⟨?_, ?_, ?_⟩
  · intro t0 evs h
    have hInv := run_preserves evs (TimeDisplay.init t0) t0
      ⟨le_refl t0, le_refl 0, fun _ => rfl⟩ h
    obtain ⟨-, h2, h3⟩ := hInv
    refine ⟨h2, ?_, ?_⟩
    · intro hr u
      simp [TimeDisplay.current_elapsed, hr, h3 hr]
    · intro hr u
      simp [TimeDisplay.current_elapsed, hr]
  · intro s u v huv
    cases hr : s.running with
    | false => simp [TimeDisplay.current_elapsed, hr]
    | true =>
        simp only [TimeDisplay.current_elapsed, hr, if_true]
        linarith
  · intro s t h
    simp [TimeDisplay.current_elapsed, TimeDisplay.stop, h]

/-- Witness for C5_invariants: the trace start-at-1, stop-at-3 from a fresh
tracker created at instant 0; elapsed monotone from instant 0 to 2 on the
fresh tracker; and stop at instant 2 on a tracker started at instant 0. -/
theorem C5_invariants_witness :
    (timesMono 0 [(Op.start, 1), (Op.stop, 3)] = true ∧
      0 ≤ (run (TimeDisplay.init 0) [(Op.start, 1), (Op.stop, 3)]).total) ∧
    ((0 : ℚ) ≤ 2 ∧
      TimeDisplay.current_elapsed (TimeDisplay.init 0) 0
        ≤ TimeDisplay.current_elapsed (TimeDisplay.init 0) 2) ∧
    ((TimeDisplay.start (TimeDisplay.init 0) 0).running = true ∧
      TimeDisplay.current_elapsed
          (TimeDisplay.stop (TimeDisplay.start (TimeDisplay.init 0) 0) 2) 2
        = TimeDisplay.current_elapsed (TimeDisplay.start (TimeDisplay.init 0) 0) 2) :=
  ⟨⟨by norm_num [timesMono],
    (C5_invariants.1 0 [(Op.start, 1), (Op.stop, 3)] (by norm_num [timesMono])).1⟩,
   ⟨by norm_num,
    C5_invariants.2.1 (TimeDisplay.init 0) 0 2 (by norm_num)⟩,
   ⟨rfl,
    C5_invariants.2.2 (TimeDisplay.start (TimeDisplay.init 0) 0) 2 rfl⟩⟩

/-- Claim C6: on a running tracker, `stop` immediately followed by `start`
at the same instant leaves the observable elapsed value at that instant
unchanged: the segment is banked into `total` by `stop` and the new segment
contributes zero, so no time is double-counted or lost. -/
theorem C6_stop_start_same_instant (s : TimeDisplay) (t : ℚ)
    (h : s.running = true) :
    TimeDisplay.current_elapsed
        (TimeDisplay.start (TimeDisplay.stop s t) t) t
      = TimeDisplay.current_elapsed s t := by
  simp [TimeDisplay.current_elapsed, TimeDisplay.start, TimeDisplay.stop, h]

/-- Witness for C6_stop_start_same_instant: the tracker started at instant
0, with the stop-start pair at instant 4. -/
theorem C6_stop_start_same_instant_witness :
    (TimeDisplay.start (TimeDisplay.init 0) 0).running = true ∧
    TimeDisplay.current_elapsed
        (TimeDisplay.start
          (TimeDisplay.stop (TimeDisplay.start (TimeDisplay.init 0) 0) 4) 4) 4
      = TimeDisplay.current_elapsed (TimeDisplay.start (TimeDisplay.init 0) 0) 4 :=
  ⟨rfl, C6_stop_start_same_instant (TimeDisplay.start (TimeDisplay.init 0) 0) 4 rfl⟩

/-- Claim C7: the `watch_time` formatter of line 28 renders durations as
HH:MM:SS.ss with hours zero-padded to at least two digits (with thousands
separators), minutes zero-padded to two digits, and seconds zero-padded to
two digits with two decimal places; in particular it renders 3725.5 seconds
as "01:02:05.50" (and 0 seconds as the "00:00:00.00" shown by the initial
label of line 76). -/
theorem C7_watch_time_format :
    watch_time (7451 / 2) = "01:02:05.50" ∧ watch_time 0 = "00:00:00.00" := by
  constructor <;>
    · norm_num [watch_time, fmt_hours, fmt_minutes, fmt_seconds, roundHalfEven,
        Rat.floor]
      decide

/-- Claim C8: the collection actions are total and safe: removing from an
empty collection is a no-op, removing after an add returns the original
collection (the most recently mounted stopwatch is the one removed, for any
tail position), remove-all always empties the collection, and a remove after
remove-all stays empty. -/
theorem C8_collection_actions :
    action_remove_stopwatch ([] : List TimeDisplay) = [] ∧
    (∀ (l : List TimeDisplay) (t0 : ℚ),
        action_remove_stopwatch (action_add_stopwatch l t0) = l) ∧
    (∀ (l : List TimeDisplay) (x : TimeDisplay),
        action_remove_stopwatch (l ++ [x]) = l) ∧
    (∀ l : List TimeDisplay, action_remove_all_stopwatches l = []) ∧
    (∀ l : List TimeDisplay,
        action_remove_stopwatch (action_remove_all_stopwatches l) = []) := by
  refine ⟨rfl, ?_, ?_, fun _ => rfl, fun _ => rfl⟩ <;>
    · intro l x
      simp [action_add_stopwatch, action_remove_stopwatch]

/-- Claim C9: from a fresh tracker created at instant 0, the trace start at
0, stop at 3, start at 10 observed at instant 12 yields an elapsed value of
5: the 3 banked by the completed segment plus 2 of the current segment; the
stopped interval from 3 to 10 is not counted. -/
theorem C9_two_segment_scenario :
    TimeDisplay.current_elapsed
        (TimeDisplay.start
          (TimeDisplay.stop (TimeDisplay.start (TimeDisplay.init 0) 0) 3) 10) 12
      = 5 := by
  norm_num [TimeDisplay.current_elapsed, TimeDisplay.start, TimeDisplay.stop,
    TimeDisplay.init]

/-- Claim C10: because `watch_time` computes the fields by divmod on the
real-valued duration and rounds each field independently, the duration
59.999 seconds, just below a minute boundary, renders with a seconds field
of "60.00": the output "00:00:60.00" is not a well-formed HH:MM:SS.ss time
with seconds below 60. -/
theorem C10_seconds_field_sixty :
    watch_time (59999 / 1000) = "00:00:60.00" := by
  norm_num [watch_time, fmt_hours, fmt_minutes, fmt_seconds, roundHalfEven,
    Rat.floor]
  decide
